import Mathlib

/-!
Shallow embedding of the data-marshaling and node layers of the
`caen_felib` Python binding (files `device.py`, `lib.py`, `error.py`,
`_utils.py`), with theorems settling the specification claims.

Machine model: 64-bit Linux (x86-64), so `ctypes.c_size_t` has 8 bytes and
`ctypes.c_longdouble` has 16 bytes.  Memory addresses are modelled as `Nat`;
`numpy` arrays are C-contiguous, so row `i` of a 2-D array of shape `[R, C]`
with element size `s` starts at `base + i * C * s`.
-/

namespace Caen

/-- The ctypes scalar types appearing as values of `_type_map` in
`device.py`. -/
inductive CType where
  | cUInt8 | cUInt16 | cUInt32 | cUInt64
  | cInt8 | cInt16 | cInt32 | cInt64
  | cChar | cBool | cSizeT
  | cFloat | cDouble | cLongDouble
  deriving DecidableEq, Repr

/-- `numpy.dtype(t).itemsize` for each ctypes type, on 64-bit Linux. -/
def CType.itemsize : CType → Nat
  | .cUInt8 => 1
  | .cUInt16 => 2
  | .cUInt32 => 4
  | .cUInt64 => 8
  | .cInt8 => 1
  | .cInt16 => 2
  | .cInt32 => 4
  | .cInt64 => 8
  | .cChar => 1
  | .cBool => 1
  | .cSizeT => 8
  | .cFloat => 4
  | .cDouble => 8
  | .cLongDouble => 16

/-- The `_type_map` dictionary of `device.py`, as an association list in
source order.  Note the key `"LONG DOUBLE"` contains a space, exactly as in
the source. -/
def typeMapList : List (String × CType) :=
  [("U8", CType.cUInt8),
   ("U16", CType.cUInt16),
   ("U32", CType.cUInt32),
   ("U64", CType.cUInt64),
   ("I8", CType.cInt8),
   ("I16", CType.cInt16),
   ("I32", CType.cInt32),
   ("I64", CType.cInt64),
   ("CHAR", CType.cChar),
   ("BOOL", CType.cBool),
   ("SIZE_T", CType.cSizeT),
   ("FLOAT", CType.cFloat),
   ("DOUBLE", CType.cDouble),
   ("LONG DOUBLE", CType.cLongDouble)]

/-- Dictionary lookup `_type_map[s]`, `none` standing for a `KeyError`. -/
def typeMap (s : String) : Option CType :=
  (typeMapList.find? (fun p => p.1 == s)).map (fun p => p.2)

/-- One entry of the format list passed to `Node.set_read_data_format`
(the `_DataField` TypedDict).  `dim` and `shape` keys may be absent;
`name` and `type` are always present in the modelled scenarios. -/
structure DataField where
  name : String
  type : String
  dim : Option Nat
  shape : Option (List Nat)
  deriving DecidableEq, Repr

/-- `data_field.get('dim', 0)` in `_Data.__init__`. -/
def fieldDim (f : DataField) : Nat := f.dim.getD 0

/-- `data_field.get('shape', [])` in `_Data.__init__`. -/
def fieldShape (f : DataField) : List Nat := f.shape.getD []

/-- Wrapper to `CAEN_FELib_ErrorCode` (`error.py`). -/
inductive ErrorCode where
  | success
  | genericError
  | invalidParam
  | deviceAlreadyOpen
  | deviceNotFound
  | maxDevicesError
  | commandError
  | internalError
  | notImplemented
  | invalidHandle
  | deviceLibraryNotAvailable
  | timeout
  | stop
  | disabled
  | badLibraryVersion
  | communicationError
  deriving DecidableEq, Repr

/-- The integer value of each `ErrorCode` member. -/
def ErrorCode.toInt : ErrorCode → Int
  | .success => 0
  | .genericError => -1
  | .invalidParam => -2
  | .deviceAlreadyOpen => -3
  | .deviceNotFound => -4
  | .maxDevicesError => -5
  | .commandError => -6
  | .internalError => -7
  | .notImplemented => -8
  | .invalidHandle => -9
  | .deviceLibraryNotAvailable => -10
  | .timeout => -11
  | .stop => -12
  | .disabled => -13
  | .badLibraryVersion => -14
  | .communicationError => -15

/-- `ErrorCode(res)` in Python: the member with value `res`, or `none`
standing for the `ValueError` raised on an unknown value. -/
def errorCodeOfInt (i : Int) : Option ErrorCode :=
  if i = 0 then some .success
  else if i = -1 then some .genericError
  else if i = -2 then some .invalidParam
  else if i = -3 then some .deviceAlreadyOpen
  else if i = -4 then some .deviceNotFound
  else if i = -5 then some .maxDevicesError
  else if i = -6 then some .commandError
  else if i = -7 then some .internalError
  else if i = -8 then some .notImplemented
  else if i = -9 then some .invalidHandle
  else if i = -10 then some .deviceLibraryNotAvailable
  else if i = -11 then some .timeout
  else if i = -12 then some .stop
  else if i = -13 then some .disabled
  else if i = -14 then some .badLibraryVersion
  else if i = -15 then some .communicationError
  else none

/-- The structured exception `error.Error`: message, code and name of the
failed native function. -/
structure FelibError where
  message : String
  code : ErrorCode
  func : String
  deriving DecidableEq, Repr

/-- The Python exceptions that the modelled code can raise. -/
inductive PyError where
  /-- `RuntimeError('shape length must match dim')` in `_Data.__init__`. -/
  | shapeMismatch
  /-- `KeyError` from the `_type_map[self.type]` lookup. -/
  | keyError (key : String)
  /-- `error.Error` raised by `_Lib.__api_errcheck`. -/
  | felib (e : FelibError)
  /-- `ValueError` raised by `ErrorCode(res)` on an unknown value. -/
  | valueError (res : Int)
  deriving DecidableEq, Repr

/-- The `_Data` object built by `_Data.__init__`: field metadata, the base
address of the `numpy` buffer `value`, the optional `proxy_value_2d` array
(stored as the list of addresses it holds), the base address of that proxy
allocation, and the generated `arg` pointer. -/
structure Data where
  name : String
  type : String
  dim : Nat
  shape : List Nat
  itemsize : Nat
  valueBase : Nat
  proxyValue2d : Option (List Nat)
  proxyBase : Nat
  arg : Nat
  deriving DecidableEq, Repr

/-- Byte distance between consecutive rows of a C-contiguous array:
product of the trailing extents times the element size.  For shape
`[R, C]` this is `C * itemsize`, the size of one row. -/
def rowStride (shape : List Nat) (itemsize : Nat) : Nat :=
  (shape.tail.foldl (fun a b => a * b) 1) * itemsize

/-- `_Data.__generate_arg`: for `dim < 2` the `numpy` array is used
directly (`arg` points at the value buffer); for `dim >= 2` a proxy array
of row addresses is built from `(v.ctypes.data for v in self.value)` and
`arg` points at the proxy allocation.  Returns the `proxy_value_2d`
contents and the `arg` address. -/
def generateArg (dim : Nat) (shape : List Nat) (itemsize valueBase proxyBase : Nat) :
    Option (List Nat) × Nat :=
  if dim < 2 then
    (none, valueBase)
  else
    (some ((List.range (shape.headD 0)).map
      (fun i => valueBase + i * rowStride shape itemsize)), proxyBase)

/-- `_Data.__init__`: reads `dim` and `shape` with their defaults, raises
`RuntimeError` when `dim != len(shape)`, then looks the type up in
`_type_map` (raising `KeyError` on a missing key), allocates the value
buffer at `valueBase` and generates the argument.  `valueBase` and
`proxyBase` are the addresses handed out by the allocator for the `value`
and `proxy_value_2d` allocations. -/
def dataInit (f : DataField) (valueBase proxyBase : Nat) : Except PyError Data :=
  if fieldDim f ≠ (fieldShape f).length then
    .error .shapeMismatch
  else
    match typeMap f.type with
    | none => .error (.keyError f.type)
    | some t =>
      .ok ⟨f.name, f.type, fieldDim f, fieldShape f, t.itemsize, valueBase,
        (generateArg (fieldDim f) (fieldShape f) t.itemsize valueBase proxyBase).1,
        proxyBase,
        (generateArg (fieldDim f) (fieldShape f) t.itemsize valueBase proxyBase).2⟩

/-- `_Lib.__api_errcheck` (`lib.py`): a negative status raises
`error.Error(self.last_error, res, func.__name__)`; a zero or positive
status is returned unchanged.  `Error.__init__` converts `res` with
`ErrorCode(res)`, which raises `ValueError` on a value outside the
enumeration. -/
def apiErrcheck (res : Int) (lastError funcName : String) : Except PyError Int :=
  if res < 0 then
    match errorCodeOfInt res with
    | some c => .error (.felib ⟨lastError, c, funcName⟩)
    | none => .error (.valueError res)
  else
    .ok res

/-- The loop `tuple(_Data(f) for f in fmt)` at the end of
`Node.set_read_data_format`: builds the `_Data` objects in order, the
first raised exception propagating.  `alloc i` gives the `(value, proxy)`
base addresses the allocator hands to the `i`-th field. -/
def buildAll (alloc : Nat → Nat × Nat) : Nat → List DataField → Except PyError (List Data)
  | _, [] => .ok []
  | i, f :: rest =>
    match dataInit f (alloc i).1 (alloc i).2 with
    | .error e => .error e
    | .ok d =>
      match buildAll alloc (i + 1) rest with
      | .error e => .error e
      | .ok ds => .ok (d :: ds)

/-- `Node.set_read_data_format`: first performs the native registration
call `lib.set_read_data_format(self.handle, dumps(fmt).encode())`
(whose outcome is the `native` parameter), then allocates the `_Data`
objects.  The first component counts the native registration calls made
(always exactly one, since the registration is the first statement). -/
def setReadDataFormat (native : Except FelibError Unit) (alloc : Nat → Nat × Nat)
    (fmt : List DataField) : Nat × Except PyError (List Data) :=
  match native with
  | .error e => (1, .error (.felib e))
  | .ok _ => (1, buildAll alloc 0 fmt)

/-- Variadic argument list built by `Node.read_data`:
`*(d.arg for d in data)`, one address per field, in order. -/
def readDataPassedArgs (data : List Data) : List Nat :=
  data.map (fun d => d.arg)

/-- `Node.read_data(timeout, data)`: calls the native variadic
`lib.read_data(self.handle, timeout, *(d.arg for d in data))` and lets
`__api_errcheck` classify the returned status.  The wrapper returns no
value (`None`); the native library writes event data into the buffers
whose addresses were passed.  `native` models `CAEN_FELib_ReadData` as a
function of the handle, the timeout and the passed addresses. -/
def nodeReadData (native : Nat → Int → List Nat → Int) (lastError : String)
    (handle : Nat) (timeout : Int) (data : List Data) : Except PyError Unit :=
  match apiErrcheck (native handle timeout (readDataPassedArgs data)) lastError
      "CAEN_FELib_ReadData" with
  | .error e => .error e
  | .ok _ => .ok ()

/-- One `Node.read_data` call against a native stub returning status
`st`, with the argument plumbing elided (the error path does not depend
on the addresses). -/
def readDataStatus (lastError : String) (st : Int) : Except PyError Unit :=
  nodeReadData (fun _ _ _ => st) lastError 0 100 []

/-- The consumer loop from the `Node.read_data` docstring: retry on
`TIMEOUT`, break cleanly on `STOP`, re-raise anything else.  The native
stub is a finite script of statuses, consumed one per iteration; an
exhausted script ends the modelled run. -/
def readLoop (lastError : String) : List Int → Except PyError Unit
  | [] => .ok ()
  | st :: rest =>
    match readDataStatus lastError st with
    | .ok _ => readLoop lastError rest
    | .error (.felib e) =>
      if e.code = .timeout then readLoop lastError rest
      else if e.code = .stop then .ok ()
      else .error (.felib e)
    | .error e2 => .error e2

/-- The `while True` loop of `Node.get_child_nodes`: call the native
`CAEN_FELib_GetChildHandles` with the current buffer size, return when
`res <= initial_size`, otherwise set `initial_size = res` and retry.
`native size` is the (non-negative) value returned for a buffer of
`size` entries.  Returns the list of sizes passed to the native calls
and the final `res`, or `none` when the fuel runs out before the loop
exits. -/
def childLoop (native : Nat → Nat) : Nat → Nat → Option (List Nat × Nat)
  | 0, _ => none
  | fuel + 1, size =>
    if native size ≤ size then
      some ([size], native size)
    else
      (childLoop native fuel (native size)).map (fun p => (size :: p.1, p.2))

/-- The `while True` loop of `Node.get_device_tree`: return when
`res < initial_size` (equal not fine, per the source comment), otherwise
set `initial_size = res` and retry. -/
def treeLoop (native : Nat → Nat) : Nat → Nat → Option (List Nat × Nat)
  | 0, _ => none
  | fuel + 1, size =>
    if native size < size then
      some ([size], native size)
    else
      (treeLoop native fuel (native size)).map (fun p => (size :: p.1, p.2))

/-- A native call that reports the exact required size `r` on every
invocation, regardless of the buffer size provided — the assumption
stated by the claim. -/
def constReq (r : Nat) : Nat → Nat := fun _ => r

/-- `constReq 10`, named so that concrete statements stay closed. -/
def constReq10 : Nat → Nat := constReq 10

/-- Modelled from the spec: the native `CAEN_FELib_GetDeviceTree` is not
part of this repository.  Per the spec it reports the exact required
size when the buffer is too small; per the source comment `equal not
fine, see docs`, a successful call reports a value strictly below the
provided size (the serialized length, excluding the terminator, with
`tree + 1` bytes required in total).  `tree` is the serialized length. -/
def treeNative (tree : Nat) : Nat → Nat :=
  fun size => if tree < size then tree else tree + 1

/-- `CacheManager.clear_all` (`_utils.py`): `cache_clear` on every
registered `lru_cache` wrapper.  The cache state is the list of the
per-wrapper entry lists. -/
def clearAll (cache : List (List Nat)) : List (List Nat) :=
  cache.map (fun _ => [])

/-- `Node.close`: `lib.close(self.handle)` first (its outcome is
`native`); only when it returns does `self.opened = False` and
`Node.__clear_cache()` run.  Returns the new `(opened, cache)` state and
the propagated exception, if any. -/
def closeNodeModel (native : Except FelibError Unit) (opened : Bool)
    (cache : List (List Nat)) : (Bool × List (List Nat)) × Option FelibError :=
  match native with
  | .error e => ((opened, cache), some e)
  | .ok _ => ((false, clearAll cache), none)

/-- A `Node` object: `handle`, the `root_node` reference (an actual node
object, or `none` for the Python `None`), and the `opened` flag. -/
inductive PyNode where
  | mk (handle : Nat) (root : Option PyNode) (opened : Bool)

/-- The `handle` attribute. -/
def PyNode.handle : PyNode → Nat
  | .mk h _ _ => h

/-- The `root_node` attribute. -/
def PyNode.root : PyNode → Option PyNode
  | .mk _ r _ => r

/-- The `opened` attribute. -/
def PyNode.opened : PyNode → Bool
  | .mk _ _ o => o

/-- `Node.__init__(handle, root_node)`: stores both and sets
`opened = root_node is None`. -/
def nodeInit (h : Nat) (r : Option PyNode) : PyNode :=
  .mk h r r.isNone

/-- `Node.__root_node`: `self if self.root_node is None else
self.root_node`. -/
def rootNodeFn (n : PyNode) : PyNode :=
  match n.root with
  | none => n
  | some r => r

/-- Construction of a navigation result, common to `get_node`,
`get_parent_node` and each element of `get_child_nodes`:
`type(self)(new_handle, self.__root_node())`. -/
def navNode (self : PyNode) (newHandle : Nat) : PyNode :=
  nodeInit newHandle (some (rootNodeFn self))

/-- Effect of a successful `Node.close` on the node's own attributes:
`self.opened = False`; `handle` and `root_node` are untouched. -/
def closeNode (n : PyNode) : PyNode :=
  .mk n.handle n.root false

/-- The claimed invariant `opened == (root_node is None)`. -/
def nodeInv (n : PyNode) : Bool :=
  n.opened == n.root.isNone

/-- A node whose root reference, when present, points at a true root
(a node with `root_node is None`): the root reference has depth at most
one. -/
def wellFormedNode (n : PyNode) : Bool :=
  match n.root with
  | none => true
  | some r => r.root.isNone

instance : Inhabited Data := ⟨⟨"", "", 0, [], 0, 0, none, 0, 0⟩⟩

/-- Documented native byte width of each scalar type, stated from the
spec's words (§3/§4.1) for comparison with the embedded `_type_map`:
fixed-width integers by their bit width, `CHAR` and `BOOL` one byte,
`SIZE_T` the platform word width (8 on 64-bit), `FLOAT`/`DOUBLE` IEEE
single and double, long double the platform-extended precision (16 on
x86-64). -/
def specDocumentedWidth (s : String) : Option Nat :=
  if s = "U8" then some 1
  else if s = "U16" then some 2
  else if s = "U32" then some 4
  else if s = "U64" then some 8
  else if s = "I8" then some 1
  else if s = "I16" then some 2
  else if s = "I32" then some 4
  else if s = "I64" then some 8
  else if s = "CHAR" then some 1
  else if s = "BOOL" then some 1
  else if s = "SIZE_T" then some 8
  else if s = "FLOAT" then some 4
  else if s = "DOUBLE" then some 8
  else if s = "LONG DOUBLE" then some 16
  else none

/-- A fixed allocator handing out distinct value and proxy base addresses
per field index, used for concrete scenarios. -/
def allocDefault : Nat → Nat × Nat :=
  fun i => (1000 + 1000 * i, 500000 + 1000 * i)

/-- A format field with `dim = 1` but an empty `shape`: `dim` does not
match `len(shape)`. -/
def c1BadField : DataField := ⟨"x", "U16", some 1, some []⟩

/-- A `dim = 2` field of two rows of four `U16` elements. -/
def c4Field : DataField := ⟨"WAVEFORM", "U16", some 2, some [2, 4]⟩

/-- The hypothetical reallocating allocator moving the primary `numpy`
buffer to a new base address: only the buffer's location changes; the
object's stored `proxy_value_2d` contents, the proxy allocation and the
`arg` pointer are attributes of the Python object and are untouched by a
memory move. -/
def setValueBase (d : Data) (nb : Nat) : Data :=
  ⟨d.name, d.type, d.dim, d.shape, d.itemsize, nb, d.proxyValue2d, d.proxyBase, d.arg⟩

/-- The `_Data` built for `c4Field` with the value buffer at 1000 and the
proxy allocation at 5000. -/
def c4Built : Data := ((dataInit c4Field 1000 5000).toOption).getD default

/-- `c4Built` after the hypothetical allocator moved its primary buffer
to base address 2000. -/
def c4Moved : Data := setValueBase c4Built 2000

/-- Address of row `i` (element `[i, 0]`) of the primary buffer of a
C-contiguous `_Data` value. -/
def rowAddress (d : Data) (i : Nat) : Nat :=
  d.valueBase + i * rowStride d.shape d.itemsize

/-- A native read stub that always reports success. -/
def zeroNative : Nat → Int → List Nat → Int := fun _ _ _ => 0

/-- A concrete one-field data list for read scenarios. -/
def sampleData : List Data := [⟨"E", "U16", 0, [], 2, 77, none, 88, 77⟩]

/-- A concrete one-field scalar format. -/
def c8Fmt : List DataField := [⟨"E", "U16", none, none⟩]

/-- The `_Data` list built from `c8Fmt` with `allocDefault`. -/
def c8Ds : List Data := [⟨"E", "U16", 0, [], 2, 1000, none, 500000, 1000⟩]

/-- C5: `Node.read_data` raises `error.Error` with code `TIMEOUT` when the
native read returns -11 and with code `STOP` when it returns -12, and the
documented consumer loop (retry on `TIMEOUT`, break on `STOP`), run
against a native stub returning first -11 and then -12, terminates
cleanly without propagating any exception. -/
theorem c5_timeout_stop_loop : ∀ le : String,
    (∃ e, readDataStatus le (-11) = .error (.felib e) ∧ e.code = ErrorCode.timeout) ∧
    (∃ e, readDataStatus le (-12) = .error (.felib e) ∧ e.code = ErrorCode.stop) ∧
    readLoop le [-11, -12] = .ok () := by
  intro le
  refine ⟨⟨⟨le, .timeout, "CAEN_FELib_ReadData"⟩, rfl, rfl⟩,
    ⟨⟨le, .stop, "CAEN_FELib_ReadData"⟩, rfl, rfl⟩, rfl⟩

/-- C6: every wrapped native call goes through `__api_errcheck`: a
negative status in the error-code enumeration raises a structured error
carrying the code, the library's last-error description and the name of
the originating native function; a zero or positive status raises
nothing and is returned unchanged. -/
theorem c6_errcheck : ∀ (res : Int) (le fn : String),
    (0 ≤ res → apiErrcheck res le fn = .ok res) ∧
    (-15 ≤ res → res < 0 →
      ∃ c, apiErrcheck res le fn = .error (.felib ⟨le, c, fn⟩) ∧ c.toInt = res) := by
  intro res le fn
  constructor
  · intro h
    simp [apiErrcheck, Int.not_lt.2 h]
  · intro h1 h2
    interval_cases res <;> exact ⟨_, rfl, rfl⟩

/-- Witness for `c6_errcheck` at `res = -11`. -/
theorem c6_errcheck_witness :
    ((0 : Int) ≤ -11 → apiErrcheck (-11) "err" "CAEN_FELib_ReadData" = .ok (-11)) ∧
    ((-15 : Int) ≤ -11 → (-11 : Int) < 0 →
      ∃ c, apiErrcheck (-11) "err" "CAEN_FELib_ReadData" =
        .error (.felib ⟨"err", c, "CAEN_FELib_ReadData"⟩) ∧ c.toInt = -11) :=
  c6_errcheck (-11) "err" "CAEN_FELib_ReadData"

/-- C9: on a successful `Node.close` the opened flag becomes `False` and
the class-level cache is cleared in full (every cached entry of every
wrapper becomes empty); when the native close call raises, neither
happens and the exception propagates. -/
theorem c9_close_cache : ∀ (opened : Bool) (cache : List (List Nat)),
    closeNodeModel (.ok ()) opened cache = ((false, clearAll cache), none) ∧
    (clearAll cache).all List.isEmpty = true ∧
    ∀ e, closeNodeModel (.error e) opened cache = ((opened, cache), some e) := by
  intro opened cache
  refine ⟨rfl, ?_, fun e => rfl⟩
  simp [clearAll, List.all_eq_true]

/-- C1 counterexample: for the format list `[c1BadField]` (whose single
field has `dim = 1` but `len(shape) = 0`), `set_read_data_format` does
fail with the shape-mismatch error, but only after one native
registration call has been made — the claim asserts no registration is
attempted. -/
theorem c1_counterexample :
    (setReadDataFormat (.ok ()) allocDefault [c1BadField]).1 = 1 ∧
    (setReadDataFormat (.ok ()) allocDefault [c1BadField]).2 = .error .shapeMismatch ∧
    (1 : Nat) ≠ 0 := by
  exact ⟨rfl, rfl, by decide⟩

/-- C3 counterexample: `"LONG_DOUBLE"` belongs to the claim's
enumeration, yet constructing a field of that type fails with a
`KeyError`, because the key in `_type_map` is `"LONG DOUBLE"` (with a
space), for which construction succeeds. -/
theorem c3_counterexample :
    dataInit ⟨"x", "LONG_DOUBLE", none, none⟩ 0 0 = .error (.keyError "LONG_DOUBLE") ∧
    ∃ d, dataInit ⟨"x", "LONG DOUBLE", none, none⟩ 0 0 = .ok d ∧ d.itemsize = 16 := by
  exact ⟨rfl, ⟨⟨"x", "LONG DOUBLE", 0, [], 16, 0, none, 0, 0⟩, rfl, rfl⟩⟩

/-- C4 counterexample: after the hypothetical allocator moves the
primary buffer of a `dim = 2` field from base 1000 to base 2000, a read
still passes the construction-time `arg` pointer and the stored proxy
still holds the old row addresses: entry 0 of the proxy (1000) differs
from the address of row 0 of the primary buffer (2000), so the proxy is
not regenerated when the base address changes. -/
theorem c4_counterexample :
    c4Moved.proxyValue2d = some [1000, 1008] ∧
    rowAddress c4Moved 0 = 2000 ∧
    readDataPassedArgs [c4Moved] = [5000] ∧
    c4Moved.arg = c4Built.arg ∧
    (1000 : Nat) ≠ rowAddress c4Moved 0 := by
  refine ⟨by decide, by decide, by decide, rfl, by decide⟩

/-- Helper: a valid field (matching `dim`/`shape`, supported type) is
constructed by `dataInit` into the explicit record. -/
theorem dataInit_ok_of_valid (f : DataField) (vb pb : Nat) (t : CType)
    (hlen : fieldDim f = (fieldShape f).length) (ht : typeMap f.type = some t) :
    dataInit f vb pb = .ok ⟨f.name, f.type, fieldDim f, fieldShape f, t.itemsize, vb,
      (generateArg (fieldDim f) (fieldShape f) t.itemsize vb pb).1, pb,
      (generateArg (fieldDim f) (fieldShape f) t.itemsize vb pb).2⟩ := by
  simp [dataInit, hlen, ht]

/-- Helper: inversion of a successful `dataInit`. -/
theorem dataInit_fields (f : DataField) (vb pb : Nat) (d : Data)
    (h : dataInit f vb pb = .ok d) :
    fieldDim f = (fieldShape f).length ∧
    ∃ t, typeMap f.type = some t ∧
      d = ⟨f.name, f.type, fieldDim f, fieldShape f, t.itemsize, vb,
        (generateArg (fieldDim f) (fieldShape f) t.itemsize vb pb).1, pb,
        (generateArg (fieldDim f) (fieldShape f) t.itemsize vb pb).2⟩ := by
  by_cases hlen : fieldDim f = (fieldShape f).length
  · refine ⟨hlen, ?_⟩
    cases ht : typeMap f.type with
    | none => simp [dataInit, hlen, ht] at h
    | some t =>
      refine ⟨t, rfl, ?_⟩
      have hok := dataInit_ok_of_valid f vb pb t hlen ht
      rw [hok] at h
      exact ((Except.ok.injEq _ _).mp h).symm
  · simp [dataInit, hlen] at h

/-- Helper: `getD` on a mapped range. -/
theorem getD_range_map (g : Nat → Nat) (R i : Nat) (h : i < R) :
    ((List.range R).map g).getD i 0 = g i := by
  rw [List.getD_eq_getElem?_getD]
  simp [List.getElem?_map, List.getElem?_range, h]

/-- Helper: when every field's type is supported and some field's `dim`
does not match its `shape` length, building the `_Data` tuple raises the
shape-mismatch error. -/
theorem buildAll_shape_error (alloc : Nat → Nat × Nat) :
    ∀ (fmt : List DataField) (i : Nat),
      (∀ f ∈ fmt, (typeMap f.type).isSome) →
      (∃ f ∈ fmt, fieldDim f ≠ (fieldShape f).length) →
      buildAll alloc i fmt = .error .shapeMismatch := by
  intro fmt
  induction fmt with
  | nil => intro i _ hbad; simp at hbad
  | cons f rest ih =>
    intro i htypes hbad
    by_cases hf : fieldDim f = (fieldShape f).length
    · obtain ⟨t, ht⟩ := Option.isSome_iff_exists.mp (htypes f (List.mem_cons_self f rest))
      have hok := dataInit_ok_of_valid f (alloc i).1 (alloc i).2 t hf ht
      have hrest : ∃ g ∈ rest, fieldDim g ≠ (fieldShape g).length := by
        rcases hbad with ⟨g, hg, hgbad⟩
        rcases List.mem_cons.mp hg with rfl | h2
        · exact absurd hf hgbad
        · exact ⟨g, h2, hgbad⟩
      have hrec := ih (i + 1) (fun g hg => htypes g (List.mem_cons_of_mem f hg)) hrest
      simp [buildAll, hok, hrec]
    · simp [buildAll, dataInit, hf]

/-- Helper: the documented width table from the spec agrees with the
element size of every supported type of the embedded `_type_map`. -/
theorem typeMap_documented (s : String) (t : CType) (h : typeMap s = some t) :
    specDocumentedWidth s = some t.itemsize := by
  cases hfind : typeMapList.find? (fun p => p.1 == s) with
  | none => simp [typeMap, hfind] at h
  | some pr =>
    simp only [typeMap, hfind, Option.map_some'] at h
    have hmem := List.mem_of_find?_eq_some hfind
    have heq := List.find?_some hfind
    have hs : pr.1 = s := by simpa using heq
    subst hs
    fin_cases hmem <;> (obtain rfl := Option.some.inj h; rfl)

/-- C1 (amended): `set_read_data_format` always performs exactly one
native registration call, and for a format list whose fields all have
supported types but where some field has `dim != len(shape)`, it then
fails with the shape-mismatch error — after, not before, the
registration. -/
theorem c1_registration_then_shape_error :
    ∀ (fmt : List DataField) (alloc : Nat → Nat × Nat),
      (setReadDataFormat (.ok ()) alloc fmt).1 = 1 ∧
      ((∀ f ∈ fmt, (typeMap f.type).isSome) →
        (∃ f ∈ fmt, fieldDim f ≠ (fieldShape f).length) →
        (setReadDataFormat (.ok ()) alloc fmt).2 = .error .shapeMismatch) := by
  intro fmt alloc
  refine ⟨rfl, fun htypes hbad => ?_⟩
  simpa [setReadDataFormat] using buildAll_shape_error alloc fmt 0 htypes hbad

/-- Witness for `c1_registration_then_shape_error` on the concrete
format `[c1BadField]`. -/
theorem c1_registration_then_shape_error_witness :
    (∀ f ∈ [c1BadField], (typeMap f.type).isSome) ∧
    (∃ f ∈ [c1BadField], fieldDim f ≠ (fieldShape f).length) ∧
    (setReadDataFormat (.ok ()) allocDefault [c1BadField]).1 = 1 ∧
    (setReadDataFormat (.ok ()) allocDefault [c1BadField]).2 = .error .shapeMismatch :=
  ⟨by decide, by decide,
    (c1_registration_then_shape_error [c1BadField] allocDefault).1,
    (c1_registration_then_shape_error [c1BadField] allocDefault).2 (by decide) (by decide)⟩

/-- C2: compiling a `dim = 2` field of shape `[R, C]` produces a proxy
array of exactly `R` entries, entry `i` being the address of row `i`
(element `[i, 0]`) of the primary buffer; the generated argument is the
address of the proxy array when `dim >= 2` and the address of the
primary buffer when `dim < 2`; `R = 0` yields an empty proxy array. -/
theorem c2_proxy_and_arg :
    (∀ (nm ty : String) (t : CType) (R C vb pb : Nat), typeMap ty = some t →
      ∃ d, dataInit ⟨nm, ty, some 2, some [R, C]⟩ vb pb = .ok d ∧
        d.proxyValue2d = some ((List.range R).map (fun i => vb + i * (C * t.itemsize))) ∧
        (∀ l, d.proxyValue2d = some l →
          l.length = R ∧ ∀ i, i < R → l.getD i 0 = vb + i * (C * t.itemsize)) ∧
        d.arg = pb ∧ (R = 0 → d.proxyValue2d = some [])) ∧
    (∀ (f : DataField) (vb pb : Nat) (d : Data),
      fieldDim f < 2 → dataInit f vb pb = .ok d → d.arg = vb) ∧
    (∀ (f : DataField) (vb pb : Nat) (d : Data),
      2 ≤ fieldDim f → dataInit f vb pb = .ok d → d.arg = pb) := by
  refine ⟨?_, ?_, ?_⟩
  · intro nm ty t R C vb pb ht
    refine ⟨⟨nm, ty, 2, [R, C], t.itemsize, vb,
      some ((List.range R).map (fun i => vb + i * (C * t.itemsize))), pb, pb⟩,
      ?_, rfl, ?_, rfl, ?_⟩
    · simp [dataInit, fieldDim, fieldShape, ht, generateArg, rowStride]
    · intro l hl
      obtain rfl : (List.range R).map (fun i => vb + i * (C * t.itemsize)) = l :=
        (Option.some.injEq _ _).mp hl
      refine ⟨by simp, fun i hi => ?_⟩
      exact getD_range_map _ R i hi
    · intro h0
      subst h0
      simp
  · intro f vb pb d hdim h
    obtain ⟨hlen, t, ht, rfl⟩ := dataInit_fields f vb pb d h
    simp [generateArg, hdim]
  · intro f vb pb d hdim h
    obtain ⟨hlen, t, ht, rfl⟩ := dataInit_fields f vb pb d h
    simp [generateArg, Nat.not_lt.2 hdim]

/-- Witness for `c2_proxy_and_arg` on a `U16` field of shape `[2, 4]`. -/
theorem c2_proxy_and_arg_witness :
    typeMap "U16" = some CType.cUInt16 ∧
    ∃ d, dataInit ⟨"W", "U16", some 2, some [2, 4]⟩ 1000 5000 = .ok d ∧
      d.proxyValue2d =
        some ((List.range 2).map (fun i => 1000 + i * (4 * CType.itemsize CType.cUInt16))) ∧
      (∀ l, d.proxyValue2d = some l →
        l.length = 2 ∧ ∀ i, i < 2 → l.getD i 0 = 1000 + i * (4 * CType.itemsize CType.cUInt16)) ∧
      d.arg = 5000 ∧ (2 = 0 → d.proxyValue2d = some []) :=
  ⟨by decide, c2_proxy_and_arg.1 "W" "U16" CType.cUInt16 2 4 1000 5000 (by decide)⟩

/-- C3 (amended): every key of the embedded `_type_map` (with the long
double key spelled `"LONG DOUBLE"`, as in the source) constructs
successfully with the documented native element width; every string
outside the map (equivalently, different from every key) fails with a
`KeyError`.  `"LONG_DOUBLE"` with an underscore is outside the map. -/
theorem c3_supported_widths :
    (∀ (s : String) (t : CType) (vb pb : Nat), typeMap s = some t →
      ∃ d, dataInit ⟨"f", s, none, none⟩ vb pb = .ok d ∧
        d.itemsize = t.itemsize ∧ specDocumentedWidth s = some d.itemsize) ∧
    (∀ (s : String) (vb pb : Nat), typeMap s = none →
      dataInit ⟨"f", s, none, none⟩ vb pb = .error (.keyError s)) ∧
    (∀ s : String, typeMap s = none ↔ ∀ p ∈ typeMapList, p.1 ≠ s) ∧
    typeMap "LONG DOUBLE" = some CType.cLongDouble ∧
    typeMap "LONG_DOUBLE" = none := by
  refine ⟨?_, ?_, ?_, by decide, by decide⟩
  · intro s t vb pb ht
    have hlen : fieldDim ⟨"f", s, none, none⟩ = (fieldShape ⟨"f", s, none, none⟩).length := rfl
    exact ⟨_, dataInit_ok_of_valid _ vb pb t hlen ht, rfl, typeMap_documented s t ht⟩
  · intro s vb pb h
    simp [dataInit, fieldDim, fieldShape, h]
  · intro s
    simp [typeMap, List.find?_eq_none]

/-- Witness for `c3_supported_widths` at `"SIZE_T"` (supported, width 8)
and `"PTRDIFF_T"` (unsupported). -/
theorem c3_supported_widths_witness :
    typeMap "SIZE_T" = some CType.cSizeT ∧
    (∃ d, dataInit ⟨"f", "SIZE_T", none, none⟩ 0 0 = .ok d ∧
      d.itemsize = CType.itemsize CType.cSizeT ∧ specDocumentedWidth "SIZE_T" = some d.itemsize) ∧
    typeMap "PTRDIFF_T" = none ∧
    dataInit ⟨"f", "PTRDIFF_T", none, none⟩ 0 0 = .error (.keyError "PTRDIFF_T") :=
  ⟨by decide, c3_supported_widths.1 "SIZE_T" CType.cSizeT 0 0 (by decide), by decide,
    c3_supported_widths.2.1 "PTRDIFF_T" 0 0 (by decide)⟩

/-- C4 (amended): the proxy array is generated once, at construction:
for every `dim >= 2` field it then satisfies `proxy[i] = address of row
i` computed from the construction-time base address, and a read passes
the construction-time `arg` pointer unchanged — no regeneration takes
place when the primary buffer's base address changes, so the invariant
at read time holds exactly because buffers are never moved in
practice. -/
theorem c4_proxy_built_once :
    (∀ (f : DataField) (vb pb : Nat) (d : Data),
      dataInit f vb pb = .ok d → 2 ≤ fieldDim f →
      ∃ l, d.proxyValue2d = some l ∧ l.length = (fieldShape f).headD 0 ∧
        ∀ i, i < l.length → l.getD i 0 = vb + i * rowStride (fieldShape f) d.itemsize) ∧
    (∀ (d : Data) (nb : Nat),
      readDataPassedArgs [setValueBase d nb] = [d.arg] ∧
      (setValueBase d nb).proxyValue2d = d.proxyValue2d ∧
      (setValueBase d nb).valueBase = nb) := by
  constructor
  · intro f vb pb d h hdim
    obtain ⟨hlen, t, ht, rfl⟩ := dataInit_fields f vb pb d h
    refine ⟨(List.range ((fieldShape f).headD 0)).map
      (fun i => vb + i * rowStride (fieldShape f) t.itemsize), ?_, by simp, ?_⟩
    · simp [generateArg, Nat.not_lt.2 hdim]
    · intro i hi
      simp only [List.length_map, List.length_range] at hi
      exact getD_range_map _ _ i hi
  · intro d nb
    exact ⟨rfl, rfl, rfl⟩

/-- Witness for `c4_proxy_built_once` on `c4Field` built at base 1000. -/
theorem c4_proxy_built_once_witness :
    dataInit c4Field 1000 5000 = .ok c4Built ∧ 2 ≤ fieldDim c4Field ∧
    ∃ l, c4Built.proxyValue2d = some l ∧ l.length = (fieldShape c4Field).headD 0 ∧
      ∀ i, i < l.length → l.getD i 0 = 1000 + i * rowStride (fieldShape c4Field) c4Built.itemsize :=
  ⟨rfl, by decide, c4_proxy_built_once.1 c4Field 1000 5000 c4Built rfl (by decide)⟩

/-- C10 counterexample: a freshly opened root node satisfies
`opened == (root_node is None)`, but a successful `close` clears
`opened` while leaving `root_node` as `None`, so the close operation
does not preserve the invariant. -/
theorem c10_counterexample :
    nodeInv (nodeInit 5 none) = true ∧
    (closeNode (nodeInit 5 none)).opened = false ∧
    (closeNode (nodeInit 5 none)).root = none ∧
    nodeInv (closeNode (nodeInit 5 none)) = false :=
  ⟨rfl, rfl, rfl, rfl⟩

/-- Helper: unfolding of one `get_device_tree` loop iteration. -/
theorem treeLoop_succ (native : Nat → Nat) (fuel size : Nat) :
    treeLoop native (fuel + 1) size =
      if native size < size then some ([size], native size)
      else (treeLoop native fuel (native size)).map (fun p => (size :: p.1, p.2)) := rfl

/-- Helper: unfolding of one `get_child_nodes` loop iteration. -/
theorem childLoop_succ (native : Nat → Nat) (fuel size : Nat) :
    childLoop native (fuel + 1) size =
      if native size ≤ size then some ([size], native size)
      else (childLoop native fuel (native size)).map (fun p => (size :: p.1, p.2)) := rfl

/-- Helper: when the native device-tree call reports the same exact
required size on every invocation and the provided size does not exceed
it, the `get_device_tree` loop never returns, for any amount of fuel. -/
theorem treeLoop_const_none (r : Nat) :
    ∀ (fuel size : Nat), size ≤ r → treeLoop (constReq r) fuel size = none := by
  intro fuel
  induction fuel with
  | zero => intro size _; rfl
  | succ f ih =>
    intro size h
    rw [treeLoop_succ]
    have hc : constReq r size = r := rfl
    rw [hc, if_neg (Nat.not_lt.2 h), ih r (Nat.le_refl r)]
    rfl

/-- C7 counterexample: with a native call that reports the exact
required size 10 on every invocation — the claim's assumption — and an
initial size of 4, the `get_device_tree` loop never returns (here, not
even within 100 iterations), instead of terminating after at most one
retry; the `get_child_nodes` loop does terminate after one retry with
two native calls. -/
theorem c7_counterexample :
    treeLoop constReq10 100 4 = none ∧
    childLoop constReq10 100 4 = some ([4, 10], 10) :=
  ⟨treeLoop_const_none 10 100 4 (by decide), rfl⟩

/-- C7 (amended): `get_child_nodes` terminates after at most one retry
(two native calls) when the native call reports the exact required
size.  `get_device_tree` terminates after at most one retry only when a
successful native call reports a value strictly below the provided size
(the serialized length, with the exact required size reported on
truncation, as modelled by `treeNative`); when the native call reports
the same exact required size on every invocation, the device-tree loop
never returns once the required size is at least the provided size. -/
theorem c7_grow_retry :
    (∀ (r n0 fuel : Nat), 2 ≤ fuel →
      ∃ calls, childLoop (constReq r) fuel n0 = some (calls, r) ∧ calls.length ≤ 2) ∧
    (∀ (tl n0 fuel : Nat), 2 ≤ fuel →
      ∃ calls, treeLoop (treeNative tl) fuel n0 = some (calls, tl) ∧ calls.length ≤ 2) ∧
    (∀ (r size : Nat), size ≤ r → ∀ fuel, treeLoop (constReq r) fuel size = none) := by
  refine ⟨?_, ?_, fun r size h fuel => treeLoop_const_none r fuel size h⟩
  · intro r n0 fuel h2
    obtain ⟨f, rfl⟩ : ∃ f, fuel = f + 2 := ⟨fuel - 2, by omega⟩
    by_cases hr : r ≤ n0
    · refine ⟨[n0], ?_, by simp⟩
      rw [childLoop_succ]
      have hc : constReq r n0 = r := rfl
      rw [hc, if_pos hr]
    · refine ⟨[n0, r], ?_, by simp⟩
      rw [childLoop_succ]
      have hc : constReq r n0 = r := rfl
      rw [hc, if_neg hr, childLoop_succ]
      have hc2 : constReq r r = r := rfl
      rw [hc2, if_pos (Nat.le_refl r)]
      rfl
  · intro tl n0 fuel h2
    obtain ⟨f, rfl⟩ : ∃ f, fuel = f + 2 := ⟨fuel - 2, by omega⟩
    by_cases hl : tl < n0
    · refine ⟨[n0], ?_, by simp⟩
      rw [treeLoop_succ]
      have hc : treeNative tl n0 = tl := if_pos hl
      rw [hc, if_pos hl]
    · refine ⟨[n0, tl + 1], ?_, by simp⟩
      rw [treeLoop_succ]
      have hc : treeNative tl n0 = tl + 1 := if_neg hl
      rw [hc, if_neg (by omega), treeLoop_succ]
      have hc2 : treeNative tl (tl + 1) = tl := if_pos (Nat.lt_succ_self tl)
      rw [hc2, if_pos (Nat.lt_succ_self tl)]
      rfl

/-- Witness for `c7_grow_retry` with required size 10 and initial size 4. -/
theorem c7_grow_retry_witness :
    (2 : Nat) ≤ 2 ∧
    (∃ calls, childLoop (constReq 10) 2 4 = some (calls, 10) ∧ calls.length ≤ 2) ∧
    (∃ calls, treeLoop (treeNative 10) 2 4 = some (calls, 10) ∧ calls.length ≤ 2) ∧
    ((4 : Nat) ≤ 10 ∧ treeLoop (constReq 10) 5 4 = none) :=
  ⟨by decide, c7_grow_retry.1 10 4 2 (by decide), c7_grow_retry.2.1 10 4 2 (by decide),
    by decide, c7_grow_retry.2.2 10 4 (by decide) 5⟩

/-- Helper: a successful `buildAll` yields one `_Data` per field, in the
order of the format list, each keeping its field's name. -/
theorem buildAll_ok_map (alloc : Nat → Nat × Nat) :
    ∀ (fmt : List DataField) (i : Nat) (ds : List Data),
      buildAll alloc i fmt = .ok ds →
      ds.length = fmt.length ∧ ds.map (fun d => d.name) = fmt.map (fun f => f.name) := by
  intro fmt
  induction fmt with
  | nil =>
    intro i ds h
    simp only [buildAll] at h
    obtain rfl := Except.ok.inj h
    simp
  | cons f rest ih =>
    intro i ds h
    cases hd : dataInit f (alloc i).1 (alloc i).2 with
    | error e => simp [buildAll, hd] at h
    | ok d =>
      cases hr : buildAll alloc (i + 1) rest with
      | error e => simp [buildAll, hd, hr] at h
      | ok ds2 =>
        simp only [buildAll, hd, hr] at h
        obtain rfl := Except.ok.inj h
        obtain ⟨hl, hn⟩ := ih (i + 1) ds2 hr
        obtain ⟨_, t, _, rfl⟩ := dataInit_fields f (alloc i).1 (alloc i).2 d hd
        simp [hl, hn]

/-- C8: `Node.read_data` passes to the native variadic call exactly one
buffer address per field, positionally in the order of the data list —
which `set_read_data_format` produces in the order the fields were
declared — and on a non-negative native status returns no value
(success is `()` with no new objects). -/
theorem c8_positional_args :
    (∀ data : List Data,
      (readDataPassedArgs data).length = data.length ∧
      ∀ i : Nat, (readDataPassedArgs data)[i]? = (data[i]?).map (fun d => d.arg)) ∧
    (∀ (native : Nat → Int → List Nat → Int) (le : String) (hd : Nat) (tm : Int)
        (data : List Data),
      0 ≤ native hd tm (readDataPassedArgs data) →
      nodeReadData native le hd tm data = .ok ()) ∧
    (∀ (alloc : Nat → Nat × Nat) (fmt : List DataField) (ds : List Data),
      (setReadDataFormat (.ok ()) alloc fmt).2 = .ok ds →
      ds.length = fmt.length ∧ ds.map (fun d => d.name) = fmt.map (fun f => f.name)) := by
  refine ⟨?_, ?_, ?_⟩
  · intro data
    exact ⟨by simp [readDataPassedArgs], fun i => by simp [readDataPassedArgs]⟩
  · intro native le hd tm data h0
    simp [nodeReadData, apiErrcheck, Int.not_lt.2 h0]
  · intro alloc fmt ds h
    simp only [setReadDataFormat] at h
    exact buildAll_ok_map alloc fmt 0 ds h

/-- Witness for `c8_positional_args` on `sampleData` and `c8Fmt`. -/
theorem c8_positional_args_witness :
    (readDataPassedArgs sampleData).length = sampleData.length ∧
    (readDataPassedArgs sampleData)[0]? = (sampleData[0]?).map (fun d => d.arg) ∧
    (0 : Int) ≤ zeroNative 7 100 (readDataPassedArgs sampleData) ∧
    nodeReadData zeroNative "err" 7 100 sampleData = .ok () ∧
    (setReadDataFormat (.ok ()) allocDefault c8Fmt).2 = .ok c8Ds ∧
    c8Ds.length = c8Fmt.length ∧
    c8Ds.map (fun d => d.name) = c8Fmt.map (fun f => f.name) :=
  ⟨(c8_positional_args.1 sampleData).1, (c8_positional_args.1 sampleData).2 0,
    by decide,
    c8_positional_args.2.1 zeroNative "err" 7 100 sampleData (by decide),
    rfl,
    c8_positional_args.2.2 allocDefault c8Fmt c8Ds rfl⟩

/-- C10 (amended): the invariant `opened == (root_node is None)` holds
at construction and is preserved by navigation: every node produced by
`get_node`, `get_parent_node` or `get_child_nodes` stores the original
root of the chain (so the root reference never deepens from a node whose
reference is already at depth at most one), has `opened = False` and
satisfies the invariant; a node constructed as a root has `opened =
True`, so only root nodes are auto-closed on garbage collection.  The
invariant is not preserved by `close` (see the counterexample). -/
theorem c10_root_invariants :
    (∀ (h : Nat) (r : Option PyNode), nodeInv (nodeInit h r) = true) ∧
    (∀ (self : PyNode) (nh : Nat),
      (navNode self nh).root = some (rootNodeFn self) ∧
      (navNode self nh).opened = false ∧
      nodeInv (navNode self nh) = true) ∧
    (∀ (self : PyNode) (nh : Nat), wellFormedNode self = true →
      (rootNodeFn self).root = none ∧ wellFormedNode (navNode self nh) = true) ∧
    (∀ h : Nat, (nodeInit h none).opened = true) := by
  refine ⟨?_, ?_, ?_, fun h => rfl⟩
  · intro h r
    cases r <;> rfl
  · intro self nh
    exact ⟨rfl, rfl, rfl⟩
  · intro self nh hwf
    cases self with
    | mk sh sr so =>
      cases sr with
      | none => exact ⟨rfl, rfl⟩
      | some r =>
        have hroot : r.root = none := by
          have : r.root.isNone = true := hwf
          exact Option.isNone_iff_eq_none.mp this
        constructor
        · exact hroot
        · simp only [navNode, nodeInit, wellFormedNode, rootNodeFn, PyNode.root]
          exact Option.isNone_iff_eq_none.mpr hroot

/-- Witness for `c10_root_invariants` on a depth-one chain. -/
theorem c10_root_invariants_witness :
    wellFormedNode (nodeInit 3 (some (nodeInit 5 none))) = true ∧
    (rootNodeFn (nodeInit 3 (some (nodeInit 5 none)))).root = none ∧
    wellFormedNode (navNode (nodeInit 3 (some (nodeInit 5 none))) 9) = true :=
  ⟨rfl,
    (c10_root_invariants.2.2.1 (nodeInit 3 (some (nodeInit 5 none))) 9 rfl).1,
    (c10_root_invariants.2.2.1 (nodeInit 3 (some (nodeInit 5 none))) 9 rfl).2⟩

end Caen
